import Mathlib

/-!
Verification of the XTF packet decoding engine of `pyxtf` (`pyxtf/xtf_ctypes.py`).

The Python module decodes the eXtended Triton Format: a 1024-byte file header
with six inline 128-byte channel descriptors, followed by self-framing packets.
Every structure is a packed little-endian `ctypes.Structure`; decoding a
structure from a byte source reads `ctypes.sizeof(cls)` bytes and overlays the
fields (`XTFBase.__new__`).  This file embeds the byte-level readers and the
record-level decode logic (`XTFFileHeader`, `XTFPacketStart`,
`XTFRawSerialHeader`, `XTFPingChanHeader`, `XTFPingHeader.__new__`,
`XTFPacket.get_time`) as executable Lean functions, and proves / refutes the
specification claims about them.

Modelling conventions:
* a byte source is a list of byte values with a read position, mirroring
  `io.BytesIO` (`read(n)` returns at most `n` bytes and advances by what it
  returned; `read` with a negative size returns the whole remainder);
* machine integers are `Nat` (all wire fields here are unsigned); signed or
  float-valued fields that no claim inspects are carried as raw bytes;
* each Python exception that the decoders can raise is a constructor of
  `XTFError`, and a decoder returns `Except XTFError`.
-/

namespace PyXTF

/-- Python exceptions raised by the decoders in `xtf_ctypes.py`. -/
inductive XTFError where
  /-- `RuntimeError('XTF file shorter than expected (end hit while reading …)')`
  raised by `XTFBase.__new__` when `buffer.read(sizeof(cls))` returns no bytes. -/
  | truncatedEOF
  /-- `ValueError` raised by `ctypes.Structure.from_buffer_copy` when the buffer
  holds fewer bytes than the structure size (the `XTFBase.__new__` emptiness
  check only catches the zero-byte case). -/
  | bufferTooSmall
  /-- `RuntimeError('XTF packet does not start with the correct identifier (0xFACE).')`. -/
  | corruptStream
  /-- `RuntimeError('Number of bytes to read exceeds the number of bytes remaining in packet.')`. -/
  | corruptRecord
  /-- `RuntimeError('File ended while reading data packets (file corrupt?)')` and
  `Exception('XTF data packets missing (file corrupt?)')`. -/
  | truncatedData
  /-- Python `IndexError` (list index / ctypes array index out of range). -/
  | indexError
  /-- Python `KeyError` from the `xtf_dtype` lookup for an unsupported sample width. -/
  | keyError
  /-- Python `ValueError` (`np.frombuffer` length mismatch, or a negative ctypes
  array length). -/
  | valueError
  /-- Python `AttributeError`. -/
  | attributeError
  /-- `ValueError` raised by `datetime.date` for an out-of-range year/month/day. -/
  | dateValueError
  /-- `RuntimeError('Unknown XTFPingHeader type encountered.')`. -/
  | unknownPingType
deriving DecidableEq, Repr

/-- The spec's `TruncatedInput` condition: fewer bytes were available than the
record requires.  Covers both exits of a short fixed-size read: the explicit
`RuntimeError` for an exhausted source and the ctypes `ValueError` for a
partially filled buffer. -/
def XTFError.isTruncatedInput : XTFError → Bool
  | .truncatedEOF => true
  | .bufferTooSmall => true
  | _ => false

/-- A sequential byte source (the `IOBase`/`BytesIO` argument of the decoders):
the underlying bytes plus the current read position. -/
structure ByteSource where
  data : List Nat
  pos : Nat
deriving DecidableEq, Repr

/-- `BytesIO.read(n)` for `n ≥ 0`: return at most `n` bytes from the current
position and advance by the number of bytes actually returned. -/
def ByteSource.read (src : ByteSource) (n : Nat) : List Nat × ByteSource :=
  let chunk := (src.data.drop src.pos).take n
  (chunk, { data := src.data, pos := src.pos + chunk.length })

/-- `BytesIO.read(n)` for a possibly negative Python `int` size: a negative size
reads the whole remainder of the stream. -/
def ByteSource.readPy (src : ByteSource) (n : Int) : List Nat × ByteSource :=
  if n < 0 then
    let chunk := src.data.drop src.pos
    (chunk, { data := src.data, pos := src.pos + chunk.length })
  else src.read n.toNat

/-- Value of a little-endian unsigned field stored in the given bytes. -/
def leVal : List Nat → Nat
  | [] => 0
  | b :: bs => b + 256 * leVal bs

/-- Extract the unsigned little-endian field of width `len` at byte offset
`off` of a structure's raw bytes (ctypes packed layout, `_pack_ = 1`). -/
def readField (bs : List Nat) (off len : Nat) : Nat :=
  leVal ((bs.drop off).take len)

/-- Recursion worker for `chunkList`, structural on a fuel argument (the
initial list length bounds the recursion depth, so the fuel never runs out
and the definition unfolds by plain iota reduction). -/
def chunkListAux (w : Nat) : Nat → List Nat → List (List Nat)
  | _, [] => []
  | 0, _ :: _ => []
  | fuel + 1, b :: bs => (b :: bs.take (w - 1)) :: chunkListAux w fuel (bs.drop (w - 1))

/-- Split a byte string into consecutive chunks of width `w` (the element
boundaries used by `np.frombuffer` and by a ctypes structure array). -/
def chunkList (w : Nat) (bs : List Nat) : List (List Nat) :=
  chunkListAux w bs.length bs

/-- `np.frombuffer(bytes, dtype=<unsigned little-endian of width w>)` as a list
of element values. -/
def chunkLE (w : Nat) (bs : List Nat) : List Nat :=
  (chunkList w bs).map leVal

/-- `XTFBase.__new__` reading a fixed-size structure:
`header_bytes = buffer.read(ctypes.sizeof(cls))`; an empty result raises
`RuntimeError('XTF file shorter than expected …')`, and
`cls.from_buffer_copy(header_bytes)` raises `ValueError` when fewer than
`sizeof(cls)` bytes were obtained. -/
def structRead (sz : Nat) (src : ByteSource) : Except XTFError (List Nat × ByteSource) :=
  let rd := src.read sz
  if rd.1.length = 0 then .error .truncatedEOF
  else if rd.1.length < sz then .error .bufferTooSmall
  else .ok rd

/-! ### File header and channel descriptors -/

/-- The fields of a 128-byte `XTFChanInfo` descriptor that the decode logic
reads: `TypeOfChannel` (u8 at offset 0), `BytesPerSample` (u16 at offset 6) and
`Reserved` (u32 at offset 8, the legacy sample count). -/
structure XTFChanInfoRec where
  TypeOfChannel : Nat
  BytesPerSample : Nat
  Reserved : Nat
deriving DecidableEq, Repr

/-- Overlay one `XTFChanInfo` at byte offset `base` of the file-header bytes. -/
def parseChanInfo (bs : List Nat) (base : Nat) : XTFChanInfoRec :=
  { TypeOfChannel := readField bs base 1
    BytesPerSample := readField bs (base + 6) 2
    Reserved := readField bs (base + 8) 4 }

/-- An `XTFFileHeader` as the decoder leaves it: the six per-category channel
counters, the six inline `ChanInfo` descriptors, and the two filtered views
`sonar_info` / `bathy_info` built by `XTFFileHeader.__init__`. -/
structure XTFFileHeaderRec where
  NumberOfSonarChannels : Nat
  NumberOfBathymetryChannels : Nat
  NumberOfSnippetChannels : Nat
  NumberOfForwardLookArrays : Nat
  NumberOfEchoStrengthChannels : Nat
  NumberOfInterferometryChannels : Nat
  ChanInfo : List XTFChanInfoRec
  sonar_info : List XTFChanInfoRec
  bathy_info : List XTFChanInfoRec
deriving DecidableEq, Repr

/-- Overlay the counters and the six descriptors of a 1024-byte
`XTFFileHeader` (counters at offsets 166–174, `ChanInfo[6]` at offset 256,
stride 128).  The filtered views start empty; `XTFFileHeader_decode` fills
them. -/
def parseFileHeader (bs : List Nat) : XTFFileHeaderRec :=
  { NumberOfSonarChannels := readField bs 166 2
    NumberOfBathymetryChannels := readField bs 168 2
    NumberOfSnippetChannels := readField bs 170 1
    NumberOfForwardLookArrays := readField bs 171 1
    NumberOfEchoStrengthChannels := readField bs 172 2
    NumberOfInterferometryChannels := readField bs 174 1
    ChanInfo := [parseChanInfo bs 256, parseChanInfo bs 384, parseChanInfo bs 512,
                 parseChanInfo bs 640, parseChanInfo bs 768, parseChanInfo bs 896]
    sonar_info := []
    bathy_info := [] }

/-- `XTFFileHeader.channel_count`: the sum of the six per-category counters. -/
def XTFFileHeaderRec.channel_count (h : XTFFileHeaderRec) : Nat :=
  h.NumberOfSonarChannels
    + h.NumberOfBathymetryChannels
    + h.NumberOfSnippetChannels
    + h.NumberOfForwardLookArrays
    + h.NumberOfEchoStrengthChannels
    + h.NumberOfInterferometryChannels

/-- `XTFFileHeader.sonar_chan_types`:
`[port.value, stbd.value, subbottom.value]`, i.e. `[1, 2, 0]`
(the `XTFChannelType` auto-enumeration is subbottom=0, port=1, stbd=2,
bathy=3). -/
def sonar_chan_types : List Nat := [1, 2, 0]

/-- `XTFChannelType.bathy.value`. -/
def bathyChannelType : Nat := 3

/-- The list comprehension `[l[i] for i in range(0, n)]` over a Python list:
evaluates to the first `n` elements, or raises `IndexError` when `n` exceeds
the length of `l`. -/
def pyIndexRange (l : List XTFChanInfoRec) : Nat → Except XTFError (List XTFChanInfoRec)
  | 0 => .ok []
  | n + 1 =>
    match pyIndexRange l n with
    | .error e => .error e
    | .ok xs =>
      match l.get? n with
      | some x => .ok (xs ++ [x])
      | none => .error .indexError

/-- `XTFFileHeader(buffer)`: `XTFBase.__new__` reads the 1024 fixed bytes, then
`XTFFileHeader.__init__` gathers `chan_info = [ChanInfo[i] for i in
range(0, channel_count())]` and filters it into `sonar_info` (channel type in
`sonar_chan_types`) and `bathy_info` (channel type equal to `bathy`). -/
def XTFFileHeader_decode (src : ByteSource) :
    Except XTFError (XTFFileHeaderRec × ByteSource) :=
  match structRead 1024 src with
  | .error e => .error e
  | .ok (bs, src1) =>
    let hdr := parseFileHeader bs
    match pyIndexRange hdr.ChanInfo hdr.channel_count with
    | .error e => .error e
    | .ok chan_info =>
      .ok ({ hdr with
              sonar_info := chan_info.filter fun x => decide (x.TypeOfChannel ∈ sonar_chan_types)
              bathy_info := chan_info.filter fun x => decide (x.TypeOfChannel = bathyChannelType) },
           src1)

/-! ### Packet preamble (`XTFPacketStart`) -/

/-- The 14-byte leading fields shared by most packets: `MagicNumber` (u16 at 0),
`HeaderType` (u8 at 2), `SubChannelNumber` (u8 at 3), `NumChansToFollow`
(u16 at 4), `Reserved1` (2×u16 at 6) and `NumBytesThisRecord` (u32 at 10). -/
structure XTFPacketStartRec where
  MagicNumber : Nat
  HeaderType : Nat
  SubChannelNumber : Nat
  NumChansToFollow : Nat
  NumBytesThisRecord : Nat
deriving DecidableEq, Repr

/-- Overlay the `XTFPacketStart` fields on a structure's raw bytes. -/
def parsePacketStart (bs : List Nat) : XTFPacketStartRec :=
  { MagicNumber := readField bs 0 2
    HeaderType := readField bs 2 1
    SubChannelNumber := readField bs 3 1
    NumChansToFollow := readField bs 4 2
    NumBytesThisRecord := readField bs 10 4 }

/-- `XTFPacketStart(buffer)`: read the 14 fixed bytes, then
`XTFPacketStart.__init__` raises `RuntimeError` unless
`MagicNumber == 0xFACE`. -/
def XTFPacketStart_decode (src : ByteSource) :
    Except XTFError (XTFPacketStartRec × ByteSource) :=
  match structRead 14 src with
  | .error e => .error e
  | .ok (bs, src1) =>
    let ps := parsePacketStart bs
    if ps.MagicNumber ≠ 0xFACE then .error .corruptStream
    else .ok (ps, src1)

/-! ### Raw serial packets (`XTFRawSerialHeader`) -/

/-- The fields of the 30-byte fixed part of `XTFRawSerialHeader` that the
decode logic touches (`StringSize` is the u16 at offset 28). -/
structure XTFRawSerialRec where
  MagicNumber : Nat
  HeaderType : Nat
  SerialPort : Nat
  StringSize : Nat
deriving DecidableEq, Repr

/-- Overlay the `XTFRawSerialHeader` fields on its 30 raw bytes. -/
def parseRawSerial (bs : List Nat) : XTFRawSerialRec :=
  { MagicNumber := readField bs 0 2
    HeaderType := readField bs 2 1
    SerialPort := readField bs 3 1
    StringSize := readField bs 28 2 }

/-- `XTFRawSerialHeader(buffer)`: read the 30 fixed bytes, check the magic
sentinel (via `XTFPacketStart.__init__`), then execute
`self.RawAsciiData = buffer.read(ctypes.sizeof(ctypes.c_char) * self.StringSize.value)`.
Reading the `StringSize` field of a ctypes structure already produces a plain
Python `int` (simple ctypes fields are transparently converted on access), and
`int` has no attribute `value`, so this line raises `AttributeError` before any
payload byte is read. -/
def XTFRawSerialHeader_decode (src : ByteSource) :
    Except XTFError (XTFRawSerialRec × List Nat × ByteSource) :=
  match structRead 30 src with
  | .error e => .error e
  | .ok (bs, _src1) =>
    let r := parseRawSerial bs
    if r.MagicNumber ≠ 0xFACE then .error .corruptStream
    else .error .attributeError

/-! ### Ping packets (`XTFPingHeader.__new__`) -/

/-- The fields of a 64-byte `XTFPingChanHeader` that the decode logic reads:
`ChannelNumber` (u16 at 0) and `NumSamples` (u32 at 42). -/
structure XTFPingChanHeaderRec where
  ChannelNumber : Nat
  NumSamples : Nat
deriving DecidableEq, Repr

/-- Overlay the `XTFPingChanHeader` fields on its 64 raw bytes. -/
def parsePingChanHeader (bs : List Nat) : XTFPingChanHeaderRec :=
  { ChannelNumber := readField bs 0 2
    NumSamples := readField bs 42 4 }

/-- `XTFPingChanHeader(buffer)`: read the 64 fixed bytes and overlay the
fields. -/
def XTFPingChanHeader_decode (src : ByteSource) :
    Except XTFError (XTFPingChanHeaderRec × ByteSource) :=
  match structRead 64 src with
  | .error e => .error e
  | .ok (bs, src1) => .ok (parsePingChanHeader bs, src1)

/-- `ctypes.sizeof(XTFPingHeader)` (asserted in the source's size table). -/
def sizeofXTFPingHeader : Nat := 256

/-- `ctypes.sizeof(XTFPingChanHeader)` (asserted in the source's size table). -/
def sizeofXTFPingChanHeader : Nat := 64

/-- One iteration of the sonar channel loop of `XTFPingHeader.__new__`
(`for i in range(0, p_header.NumChansToFollow)`):
read one `XTFPingChanHeader`; resolve
`n_samples = p_chan.NumSamples if p_chan.NumSamples > 0 else
file_header.sonar_info[i].Reserved` (the conditional expression only indexes
`sonar_info` in its else branch);
compute `n_bytes = n_samples * file_header.sonar_info[i].BytesPerSample` and
`n_bytes_remaining = NumBytesThisRecord − sizeof(XTFPingHeader) −
sizeof(XTFPingChanHeader)` (Python int arithmetic, hence `Int` here);
raise `RuntimeError` when `n_bytes > n_bytes_remaining`; read
`n_samples * BytesPerSample` data bytes (raising `RuntimeError` when the read
comes back empty); convert them with
`np.frombuffer(samples, dtype=xtf_dtype[BytesPerSample])` (`KeyError` for a
width outside {1,2,4,8}, `ValueError` when the byte count is not a multiple of
the width). -/
def decodeSonarChannel (fh : XTFFileHeaderRec) (nbtr i : Nat) (src : ByteSource) :
    Except XTFError (XTFPingChanHeaderRec × List Nat × ByteSource) :=
  match XTFPingChanHeader_decode src with
  | .error e => .error e
  | .ok (p_chan, src1) =>
    let nSamplesE : Except XTFError Nat :=
      if 0 < p_chan.NumSamples then .ok p_chan.NumSamples
      else
        match fh.sonar_info.get? i with
        | some ci => .ok ci.Reserved
        | none => .error .indexError
    match nSamplesE with
    | .error e => .error e
    | .ok n_samples =>
      match fh.sonar_info.get? i with
      | none => .error .indexError
      | some ci =>
        let n_bytes := n_samples * ci.BytesPerSample
        if (n_bytes : Int) >
            (nbtr : Int) - (sizeofXTFPingHeader : Int) - (sizeofXTFPingChanHeader : Int) then
          .error .corruptRecord
        else
          let rd := src1.read (n_samples * ci.BytesPerSample)
          if rd.1.length = 0 then .error .truncatedData
          else if ¬ (ci.BytesPerSample = 1 ∨ ci.BytesPerSample = 2 ∨
                     ci.BytesPerSample = 4 ∨ ci.BytesPerSample = 8) then .error .keyError
          else if ¬ rd.1.length % ci.BytesPerSample = 0 then .error .valueError
          else .ok (p_chan, chunkLE ci.BytesPerSample rd.1, rd.2)

/-- The whole sonar channel loop: `n` remaining iterations, current index `i`.
Collects the per-channel sub-headers and sample arrays in order. -/
def readSonarChannels (fh : XTFFileHeaderRec) (nbtr : Nat) :
    Nat → Nat → ByteSource →
    Except XTFError (List XTFPingChanHeaderRec × List (List Nat) × ByteSource)
  | 0, _, src => .ok ([], [], src)
  | n + 1, i, src =>
    match decodeSonarChannel fh nbtr i src with
    | .error e => .error e
    | .ok (pc, d, src1) =>
      match readSonarChannels fh nbtr n (i + 1) src1 with
      | .error e => .error e
      | .ok (pcs, ds, src2) => .ok (pc :: pcs, d :: ds, src2)

/-- The payload attached to a decoded ping record (`p_header.data`):
per-channel sample arrays for sonar pings, an array of 31-byte `XTFBeamXYZA`
records for `bathy_xyza`, or an opaque byte block for the other bathymetry
tags. -/
inductive XTFPingData where
  | sonar (chans : List (List Nat))
  | xyza (beams : List (List Nat))
  | rawBytes (blob : List Nat)
deriving DecidableEq, Repr

/-- A decoded `XTFPingHeader` record: its preamble fields, the per-channel
sub-headers, and the payload. -/
structure XTFPingResult where
  start : XTFPacketStartRec
  ping_chan_headers : List XTFPingChanHeaderRec
  data : XTFPingData
deriving DecidableEq, Repr

/-- `XTFPingHeader._bathy_header_types`:
`[bathy_xyza, bathy, multibeam_raw_beam_angle]` as numeric tags. -/
def bathy_header_types : List Nat := [17, 2, 74]

/-- `ctypes.sizeof(XTFBeamXYZA)` (asserted in the source's size table):
two f64 offsets, an f32 depth, an f64 time, an i16 amplitude and a u8
quality. -/
def sizeofXTFBeamXYZA : Nat := 31

/-- `XTFPingHeader(buffer, file_header)`: `XTFBase.__new__` reads the 256
fixed header bytes, then `XTFPingHeader.__new__` dispatches on `HeaderType`:

* `sonar` (0): run the channel loop `NumChansToFollow` times;
* a tag in `_bathy_header_types` ({17, 2, 74}): read
  `n_bytes = NumBytesThisRecord - sizeof(XTFPingHeader)` further bytes
  (a Python `int`, so a negative count makes `read` return the whole
  remainder), raise when the read is empty, and for `bathy_xyza` (17) overlay
  `num_xyza = n_bytes // ctypes.sizeof(XTFBeamXYZA)` beam records on the bytes
  (`(XTFBeamXYZA * num_xyza).from_buffer_copy(samples)` needs
  `31 * num_xyza ≤ len(samples)` and a non-negative array length), otherwise
  keep the block as an opaque vendor byte array;
* any other tag: `RuntimeError('Unknown XTFPingHeader type encountered.')`.

Afterwards `XTFPingHeader.__init__` runs `XTFPacketStart.__init__`, which
raises unless `MagicNumber == 0xFACE` (so the magic check happens after the
payload has been consumed). -/
def XTFPingHeader_decode (fh : XTFFileHeaderRec) (src : ByteSource) :
    Except XTFError (XTFPingResult × ByteSource) :=
  match structRead 256 src with
  | .error e => .error e
  | .ok (bs, src1) =>
    let ps := parsePacketStart bs
    let bodyE : Except XTFError (XTFPingResult × ByteSource) :=
      if ps.HeaderType = 0 then
        match readSonarChannels fh ps.NumBytesThisRecord ps.NumChansToFollow 0 src1 with
        | .error e => .error e
        | .ok (pcs, ds, src2) =>
          .ok ({ start := ps, ping_chan_headers := pcs, data := .sonar ds }, src2)
      else if ps.HeaderType ∈ bathy_header_types then
        let nBytesI : Int := (ps.NumBytesThisRecord : Int) - (sizeofXTFPingHeader : Int)
        let rd := src1.readPy nBytesI
        if rd.1.length = 0 then .error .truncatedData
        else if ps.HeaderType = 17 then
          let numXyza : Int := Int.fdiv nBytesI (sizeofXTFBeamXYZA : Int)
          if numXyza < 0 then .error .valueError
          else if rd.1.length < sizeofXTFBeamXYZA * numXyza.toNat then .error .bufferTooSmall
          else
            .ok ({ start := ps, ping_chan_headers := [],
                   data := .xyza (chunkList sizeofXTFBeamXYZA
                                    (rd.1.take (sizeofXTFBeamXYZA * numXyza.toNat))) },
                 rd.2)
        else
          .ok ({ start := ps, ping_chan_headers := [], data := .rawBytes rd.1 }, rd.2)
      else .error .unknownPingType
    match bodyE with
    | .error e => .error e
    | .ok (r, src2) =>
      if ps.MagicNumber ≠ 0xFACE then .error .corruptStream
      else .ok (r, src2)

/-- The final read position of a successful ping decode. -/
def pingFinalPos (e : Except XTFError (XTFPingResult × ByteSource)) : Option Nat :=
  match e with
  | .ok (_, s) => some s.pos
  | .error _ => none

/-- The number of decoded `XTFBeamXYZA` records of a successful `bathy_xyza`
decode. -/
def pingBeamCount (e : Except XTFError (XTFPingResult × ByteSource)) : Option Nat :=
  match e with
  | .ok (r, _) =>
    match r.data with
    | .xyza beams => some beams.length
    | _ => none
  | .error _ => none

/-! ### Timestamp resolution (`XTFPacket.get_time`)

`get_time` works on whichever of the optional fields the concrete packet class
exposes (`hasattr` probing), so the embedding carries every time-related field
as an `Option`: `none` models an absent attribute.  The resolved
`np.datetime64` value is modelled as microseconds since 1970-01-01T00:00Z. -/

/-- The time-related fields a packet may expose.  `SourceEpoch` and
`EpochMicroseconds` exist on navigation/gyro/attitude packets; exactly one of
`HSeconds`, `Millisecond`, `Microsecond` exists per packet class in the
source, but the model allows any combination, as `get_time` itself does. -/
structure TimeFields where
  SourceEpoch : Option Nat
  EpochMicroseconds : Option Nat
  Year : Nat
  Month : Nat
  Day : Nat
  Hour : Nat
  Minute : Nat
  Second : Nat
  HSeconds : Option Nat
  Millisecond : Option Nat
  Microsecond : Option Nat
deriving DecidableEq, Repr

/-- `hasattr(self, f) and self.f` for an unsigned integer field: present and
non-zero. -/
def truthyOpt : Option Nat → Bool
  | some n => decide (0 < n)
  | none => false

/-- The proleptic-Gregorian leap-year rule (`datetime`'s `_is_leap`). -/
def isLeapYear (y : Nat) : Bool :=
  y % 4 = 0 && (y % 100 ≠ 0 || y % 400 = 0)

/-- Days in the given month of the given year, leap years handled. -/
def daysInMonth (y m : Nat) : Nat :=
  if m = 2 then (if isLeapYear y then 29 else 28)
  else if m = 4 ∨ m = 6 ∨ m = 9 ∨ m = 11 then 30
  else 31

/-- CPython's `_DAYS_BEFORE_MONTH` table (days in the year preceding the
first of month `m`, non-leap), indexed here by `m - 1`. -/
def DAYS_BEFORE_MONTH : List Nat :=
  [0, 31, 59, 90, 120, 151, 181, 212, 243, 273, 304, 334]

/-- CPython's `_days_before_month`. -/
def daysBeforeMonth (y m : Nat) : Nat :=
  DAYS_BEFORE_MONTH.getD (m - 1) 0 + (if 2 < m ∧ isLeapYear y then 1 else 0)

/-- CPython's `_days_before_year`: days before January 1st of year `y`. -/
def daysBeforeYear (y : Nat) : Nat :=
  (y - 1) * 365 + (y - 1) / 4 - (y - 1) / 100 + (y - 1) / 400

/-- CPython's `_ymd2ord`: `datetime.date(y, m, d).toordinal()`. -/
def pyOrdinal (y m d : Nat) : Nat :=
  daysBeforeYear y + daysBeforeMonth y m + d

/-- `datetime.date(1970, 1, 1).toordinal()`, the ordinal of the numpy epoch. -/
def epochOrdinal : Nat := 719163

/-- The range validation performed by the `datetime.date` constructor
(`MINYEAR = 1`, `MAXYEAR = 9999`). -/
def dateValid (y m d : Nat) : Bool :=
  1 ≤ y && y ≤ 9999 && 1 ≤ m && m ≤ 12 && 1 ≤ d && d ≤ daysInMonth y m

/-- `XTFPacket.get_time`, value in microseconds since the 1970 epoch:

* if `SourceEpoch` is present and non-zero, the base time is
  `np.datetime64(SourceEpoch, 's')`; if `EpochMicroseconds` is also present
  and non-zero it is added and the function returns immediately; otherwise the
  epoch seconds are returned as-is (no calendar or sub-second field is
  consulted);
* otherwise `days = (date(Year, Month, Day) - date(Year, 1, 1)).days`
  (raising a `ValueError` for an invalid calendar date) and the time is
  `np.datetime64(str(Year), 'Y') + days + Hour + Minute + Second`;
  then, if `HSeconds` exists, `HSeconds*10` milliseconds are added and the
  function returns immediately; else the `Millisecond` field (if it exists)
  and then the `Microsecond` field (if it exists) are added. -/
def get_time (p : TimeFields) : Except XTFError Int :=
  if truthyOpt p.SourceEpoch then
    let p_time : Int := (p.SourceEpoch.getD 0 : Int) * 1000000
    if truthyOpt p.EpochMicroseconds then
      .ok (p_time + (p.EpochMicroseconds.getD 0 : Int))
    else .ok p_time
  else
    if dateValid p.Year p.Month p.Day then
      let days : Int :=
        (pyOrdinal p.Year p.Month p.Day : Int) - (pyOrdinal p.Year 1 1 : Int)
      let p_time : Int :=
        ((pyOrdinal p.Year 1 1 : Int) - (epochOrdinal : Int)) * 86400000000
          + days * 86400000000
          + (p.Hour : Int) * 3600000000
          + (p.Minute : Int) * 60000000
          + (p.Second : Int) * 1000000
      match p.HSeconds with
      | some hs => .ok (p_time + (hs : Int) * 10000)
      | none =>
        let p_time := p_time +
          (match p.Millisecond with
           | some ms => (ms : Int) * 1000
           | none => 0)
        let p_time := p_time +
          (match p.Microsecond with
           | some us => (us : Int)
           | none => 0)
        .ok p_time
    else .error .dateValueError

/-- Sum of the lengths of the months strictly before month `m + 1` of year
`y` (spec-side day-of-year building block). -/
def monthDaysSum (y : Nat) : Nat → Nat
  | 0 => 0
  | m + 1 => monthDaysSum y m + daysInMonth y (m + 1)

/-- Modelled from the spec: the day of the year of a proleptic-Gregorian
calendar date, computed from actual month lengths. -/
def specDayOfYear (y m d : Nat) : Nat :=
  monthDaysSum y (m - 1) + d

/-- Modelled from the spec: days between the 1970 epoch and the given
proleptic-Gregorian date. -/
def specEpochDays (y m d : Nat) : Int :=
  ((daysBeforeYear y + specDayOfYear y m d : Nat) : Int) - (epochOrdinal : Int)

/-- Modelled from the spec: the sub-second contribution taken from exactly one
field, in priority order: hundredths of a second (×10 ms), else milliseconds,
else microseconds. -/
def specSubsecondMicroseconds (p : TimeFields) : Int :=
  match p.HSeconds with
  | some hs => (hs : Int) * 10000
  | none =>
    match p.Millisecond with
    | some ms => (ms : Int) * 1000
    | none =>
      match p.Microsecond with
      | some us => (us : Int)
      | none => 0

/-- Modelled from the spec: the proleptic-Gregorian calendar time built from
`{year, month, day, hour, minute, second}` plus the priority-selected
sub-second field, in microseconds since the 1970 epoch. -/
def specCalendarMicroseconds (p : TimeFields) : Int :=
  specEpochDays p.Year p.Month p.Day * 86400000000
    + (p.Hour : Int) * 3600000000
    + (p.Minute : Int) * 60000000
    + (p.Second : Int) * 1000000
    + specSubsecondMicroseconds p

/-- The resolution rule of the sonar channel loop, factored for the statements
below: `n_samples = p_chan.NumSamples if p_chan.NumSamples > 0 else
sonar_info[i].Reserved` (line 699 of `xtf_ctypes.py`), for a descriptor that
exists. -/
def resolvedSampleCount (pc : XTFPingChanHeaderRec) (ci : XTFChanInfoRec) : Nat :=
  if 0 < pc.NumSamples then pc.NumSamples else ci.Reserved

/-- `true` exactly on successful decode results. -/
def isOkE {α : Type} : Except XTFError α → Bool
  | .ok _ => true
  | .error _ => false

/-- `true` when the decode failed with the spec's `TruncatedInput` condition. -/
def failsTruncated {α : Type} : Except XTFError α → Bool
  | .error err => err.isTruncatedInput
  | .ok _ => false

/-! ### Concrete inputs used by the closed theorems below -/

/-- A file header record with no channels (the bathymetry decode path never
consults the channel table). -/
def emptyFH : XTFFileHeaderRec := ⟨0, 0, 0, 0, 0, 0, [], [], []⟩

/-- A sonar channel descriptor: one byte per sample, legacy sample count 1. -/
def c1CI : XTFChanInfoRec := ⟨1, 1, 1⟩

/-- A file header with two sonar channels of descriptor `c1CI`. -/
def c1FH : XTFFileHeaderRec :=
  ⟨2, 0, 0, 0, 0, 0, List.replicate 6 c1CI, [c1CI, c1CI], []⟩

/-- A 256-byte sonar ping header: magic 0xFACE, header type 0 (sonar),
`NumChansToFollow = 2`, `NumBytesThisRecord = 322`. -/
def c1Pre : List Nat :=
  [206, 250, 0, 0, 2, 0] ++ List.replicate 4 0 ++ [66, 1, 0, 0] ++ List.replicate 242 0

/-- A 64-byte ping channel sub-header with `NumSamples = 1`. -/
def c1Ch : List Nat := List.replicate 42 0 ++ [1, 0, 0, 0] ++ List.replicate 18 0

/-- A complete two-channel sonar ping frame: 256-byte header, then for each of
the two channels a 64-byte sub-header followed by its single sample byte —
386 bytes in total, 64 more than the declared `NumBytesThisRecord = 322`. -/
def c1Bytes : List Nat := c1Pre ++ c1Ch ++ [7] ++ c1Ch ++ [9]

/-- A 30-byte raw-serial fixed prefix (magic 0xFACE, header type 6,
`StringSize = 2`) followed by exactly the two declared ascii payload bytes. -/
def c2Bytes : List Nat :=
  [206, 250, 6, 0] ++ List.replicate 24 0 ++ [2, 0] ++ [65, 66]

/-- A 256-byte `bathy_xyza` ping header: magic 0xFACE, header type 17,
`NumBytesThisRecord = 288`, so the payload block is 288 − 256 = 32 bytes —
not a multiple of the 31-byte beam record. -/
def c3Pre : List Nat :=
  [206, 250, 17, 0, 0, 0] ++ List.replicate 4 0 ++ [32, 1, 0, 0] ++ List.replicate 242 0

/-- A 256-byte `bathy_xyza` ping header with `NumBytesThisRecord = 289`
(payload 33 bytes, again not a multiple of 31). -/
def c3wPre : List Nat :=
  [206, 250, 17, 0, 0, 0] ++ List.replicate 4 0 ++ [33, 1, 0, 0] ++ List.replicate 242 0

/-- A sonar channel descriptor: two bytes per sample, legacy sample count 3. -/
def c4CI : XTFChanInfoRec := ⟨1, 2, 3⟩

/-- A file header with one sonar channel of descriptor `c4CI`. -/
def c4FH : XTFFileHeaderRec :=
  ⟨1, 0, 0, 0, 0, 0, List.replicate 6 c4CI, [c4CI], []⟩

/-- A 64-byte ping channel sub-header with `NumSamples = 0` (legacy
fallback). -/
def c4ChA : List Nat := List.replicate 64 0

/-- A 64-byte ping channel sub-header with `NumSamples = 5`. -/
def c4ChB : List Nat := List.replicate 42 0 ++ [5, 0, 0, 0] ++ List.replicate 18 0

/-- A complete one-channel sonar ping frame of exactly its declared
`NumBytesThisRecord = 330` bytes: 256-byte header (magic 0xFACE, sonar,
one channel), the sub-header `c4ChB` (5 samples) and 10 sample bytes. -/
def c1wBytes : List Nat :=
  [206, 250, 0, 0, 1, 0] ++ List.replicate 4 0 ++ [74, 1, 0, 0] ++ List.replicate 242 0
    ++ c4ChB ++ [1, 2, 3, 4, 5, 6, 7, 8, 9, 10]

/-- The record that `XTFPingHeader_decode` produces on `c1wBytes` against
`c4FH`: five two-byte samples, decoded little-endian. -/
def c1wResult : XTFPingResult :=
  { start := ⟨0xFACE, 0, 0, 1, 330⟩
    ping_chan_headers := [⟨0, 5⟩]
    data := .sonar [[513, 1027, 1541, 2055, 2569]] }

/-- A valid 14-byte preamble (magic 0xFACE). -/
def c6Good : List Nat := [206, 250, 0, 0] ++ List.replicate 10 0

/-- A 14-byte preamble whose magic field is 0xFACD, not 0xFACE. -/
def c6Bad : List Nat := [205, 250, 0, 0] ++ List.replicate 10 0

/-- A 1024-byte file header whose `NumberOfSonarChannels` counter is 7 (all
other counters zero), so `channel_count()` is 7. -/
def c7Bytes : List Nat := List.replicate 166 0 ++ [7, 0] ++ List.replicate 856 0

/-- A 1024-byte file header with `NumberOfSonarChannels = 2`,
`NumberOfBathymetryChannels = 1`, and channel types 1 (port), 7 (unknown) and
3 (bathy) in the first three descriptor slots. -/
def c10Bytes : List Nat :=
  List.replicate 166 0 ++ [2, 0] ++ [1, 0] ++ List.replicate 86 0
    ++ [1] ++ List.replicate 127 0 ++ [7] ++ List.replicate 127 0 ++ [3]
    ++ List.replicate 511 0

/-- The file header record that `XTFFileHeader_decode` produces on
`c10Bytes`. -/
def c10FH : XTFFileHeaderRec :=
  ⟨2, 1, 0, 0, 0, 0,
   [⟨1, 0, 0⟩, ⟨7, 0, 0⟩, ⟨3, 0, 0⟩, ⟨0, 0, 0⟩, ⟨0, 0, 0⟩, ⟨0, 0, 0⟩],
   [⟨1, 0, 0⟩], [⟨3, 0, 0⟩]⟩

/-- The packet of claim C8's concrete instance: no source epoch,
2020-03-01 00:00:00 with 50 hundredths of a second. -/
def c8Packet : TimeFields := ⟨none, none, 2020, 3, 1, 0, 0, 0, some 50, none, none⟩

/-- The packet of claim C9's concrete instance: a navigation-shaped packet
with `SourceEpoch = 10^9`, a zero `EpochMicroseconds`, nonsense calendar
fields and all three sub-second fields populated. -/
def c9Packet : TimeFields :=
  ⟨some 1000000000, some 0, 2099, 13, 99, 99, 99, 99, some 7, some 8, some 9⟩

/-- Decidable equality of decode results, so that the closed theorems below
can be checked by evaluation. -/
instance {ε α : Type} [DecidableEq ε] [DecidableEq α] : DecidableEq (Except ε α) := fun x y =>
  match x, y with
  | .error a, .error b =>
    if h : a = b then isTrue (congrArg Except.error h)
    else isFalse fun hc => h (Except.error.inj hc)
  | .error _, .ok _ => isFalse fun hc => Except.noConfusion hc
  | .ok _, .error _ => isFalse fun hc => Except.noConfusion hc
  | .ok a, .ok b =>
    if h : a = b then isTrue (congrArg Except.ok h)
    else isFalse fun hc => h (Except.ok.inj hc)

/-! ### Helper lemmas -/

theorem structRead_ok_of_le (sz : Nat) (src : ByteSource)
    (hsz : 0 < sz) (havail : sz ≤ src.data.length - src.pos) :
    structRead sz src = .ok ((src.data.drop src.pos).take sz,
      ⟨src.data, src.pos + sz⟩) := by
  have hlen : ((src.data.drop src.pos).take sz).length = sz := by
    simp only [List.length_take, List.length_drop]
    omega
  simp only [structRead, ByteSource.read, hlen]
  rw [if_neg (by omega), if_neg (by omega)]

theorem structRead_append {sz : Nat} {pre : List Nat} (rest : List Nat)
    (h : pre.length = sz) (hsz : 0 < sz) :
    structRead sz ⟨pre ++ rest, 0⟩ = .ok (pre, ⟨pre ++ rest, sz⟩) := by
  have ht : (pre ++ rest).take sz = pre := by
    rw [← h]
    exact List.take_left pre rest
  have hmain := structRead_ok_of_le sz ⟨pre ++ rest, 0⟩ hsz
    (by simp [List.length_append]; omega)
  rw [hmain]
  simp only [List.drop_zero, ht, Nat.zero_add]

theorem structRead_short (sz : Nat) {src : ByteSource}
    (h : src.data.length - src.pos < sz) :
    ∃ e, structRead sz src = .error e ∧ e.isTruncatedInput = true := by
  have hlen : ((src.data.drop src.pos).take sz).length < sz := by
    simp only [List.length_take, List.length_drop]
    omega
  simp only [structRead, ByteSource.read]
  by_cases h0 : ((src.data.drop src.pos).take sz).length = 0
  · exact ⟨.truncatedEOF, by rw [if_pos h0], rfl⟩
  · exact ⟨.bufferTooSmall, by rw [if_neg h0, if_pos hlen], rfl⟩

theorem structRead_ok_inv {sz : Nat} {src : ByteSource} {bs : List Nat}
    {out : ByteSource} (h : structRead sz src = .ok (bs, out)) :
    bs = (src.data.drop src.pos).take sz ∧ bs.length = sz ∧
      out.data = src.data ∧ out.pos = src.pos + sz := by
  simp only [structRead, ByteSource.read] at h
  split_ifs at h with h0 hlt
  simp only [Except.ok.injEq, Prod.mk.injEq] at h
  obtain ⟨hbs, hout⟩ := h
  subst hbs
  subst hout
  simp only [List.length_take, List.length_drop] at h0 hlt ⊢
  exact ⟨trivial, by omega, trivial, by omega⟩

theorem pyIndexRange_ok_of_le (l : List XTFChanInfoRec) :
    ∀ n, n ≤ l.length → pyIndexRange l n = .ok (l.take n)
  | 0, _ => by simp [pyIndexRange]
  | n + 1, h => by
    rw [pyIndexRange, pyIndexRange_ok_of_le l n (by omega)]
    have hn : n < l.length := by omega
    rw [List.get?_eq_get hn]
    simp [List.take_succ, List.get?_eq_get hn]

theorem pyIndexRange_err_of_gt (l : List XTFChanInfoRec) :
    ∀ n, l.length < n → pyIndexRange l n = .error .indexError
  | n + 1, h => by
    rw [pyIndexRange]
    rcases Nat.lt_or_ge l.length n with hlt | hge
    · rw [pyIndexRange_err_of_gt l n hlt]
    · have hn : l.length = n := by omega
      rw [pyIndexRange_ok_of_le l n (by omega)]
      rw [List.get?_eq_none.mpr (by omega)]

theorem pyIndexRange_ok_inv (l : List XTFChanInfoRec) :
    ∀ n xs, pyIndexRange l n = .ok xs → xs = l.take n ∧ n ≤ l.length
  | 0, xs, h => by
    simp only [pyIndexRange, Except.ok.injEq] at h
    exact ⟨h.symm ▸ rfl, Nat.zero_le _⟩
  | n + 1, xs, h => by
    rw [pyIndexRange] at h
    cases hrec : pyIndexRange l n with
    | error e => rw [hrec] at h; cases h
    | ok ys =>
      rw [hrec] at h
      obtain ⟨hys, hn⟩ := pyIndexRange_ok_inv l n ys hrec
      cases hget : l.get? n with
      | none =>
        rw [hget] at h; cases h
      | some x =>
        rw [hget] at h
        simp only [Except.ok.injEq] at h
        have hlt : n < l.length := List.get?_eq_some.mp hget |>.choose
        refine ⟨?_, by omega⟩
        have hge : l[n]? = some x := by
          rw [← List.get?_eq_getElem?]
          exact hget
        rw [← h, hys, List.take_succ, hge]
        rfl

theorem chunkListAux_length (w : Nat) (hw : 0 < w) :
    ∀ (k fuel : Nat) (bs : List Nat), bs.length = w * k → bs.length ≤ fuel →
      (chunkListAux w fuel bs).length = k
  | 0, fuel, bs, h, _ => by
    have hb : bs = [] := List.eq_nil_of_length_eq_zero (by omega)
    subst hb
    cases fuel <;> rfl
  | k + 1, fuel, bs, h, hf => by
    cases bs with
    | nil =>
      simp only [List.length_nil] at h
      exact absurd h.symm (Nat.ne_of_gt (Nat.mul_pos hw (Nat.succ_pos k)))
    | cons b tl =>
      cases fuel with
      | zero =>
        simp only [List.length_cons] at hf
        omega
      | succ f =>
        rw [chunkListAux]
        have key : ∀ m : Nat, (b :: tl).length = m + w → (tl.drop (w - 1)).length = m := by
          intro m hmw
          simp only [List.length_cons] at hmw
          simp only [List.length_drop]
          omega
        have hlen := key (w * k) (by rw [h, Nat.mul_succ])
        have hfle : (tl.drop (w - 1)).length ≤ f := by
          simp only [List.length_cons] at hf
          simp only [List.length_drop]
          omega
        simp only [List.length_cons, chunkListAux_length w hw k f _ hlen hfle]

theorem chunkList_length (w : Nat) (hw : 0 < w) (k : Nat) (bs : List Nat)
    (h : bs.length = w * k) : (chunkList w bs).length = k :=
  chunkListAux_length w hw k bs.length bs h le_rfl

/-! ### Claim C2 -/

/-- Claim C2 (code bug): the spec says that after the 30-byte fixed prefix the
raw-serial decoder reads exactly `StringSize` further bytes as the ascii
payload.  The code instead evaluates `self.StringSize.value`, but accessing a
simple ctypes field already yields a Python `int`, which has no `value`
attribute — so decoding any raw-serial packet from a byte source raises
`AttributeError` before reading a single payload byte.  The concrete input is
a well-formed raw-serial frame (magic 0xFACE, `StringSize = 2`) followed by
exactly its two declared ascii bytes. -/
theorem claimC2 :
    parseRawSerial (c2Bytes.take 30) =
      ⟨0xFACE, 6, 0, 2⟩
    ∧ XTFRawSerialHeader_decode ⟨c2Bytes, 0⟩ = .error .attributeError := by
  constructor
  · decide
  · decide

/-! ### Claim C5 -/

/-- Claim C5: every fixed-size structure decode (file header, packet preamble,
full ping packet header, ping channel sub-header) fails with the
`TruncatedInput` condition when the byte source holds fewer bytes than the
structure's fixed size (1024, 14, 256 and 64 bytes respectively). -/
theorem claimC5 (src : ByteSource) :
    (src.data.length - src.pos < 1024 →
      failsTruncated (XTFFileHeader_decode src) = true)
    ∧ (src.data.length - src.pos < 14 →
      failsTruncated (XTFPacketStart_decode src) = true)
    ∧ (∀ fh : XTFFileHeaderRec, src.data.length - src.pos < 256 →
      failsTruncated (XTFPingHeader_decode fh src) = true)
    ∧ (src.data.length - src.pos < 64 →
      failsTruncated (XTFPingChanHeader_decode src) = true) := by
  refine ⟨?_, ?_, ?_, ?_⟩
  · intro h
    obtain ⟨e, he, ht⟩ := structRead_short 1024 h
    simp [XTFFileHeader_decode, he, failsTruncated, ht]
  · intro h
    obtain ⟨e, he, ht⟩ := structRead_short 14 h
    simp [XTFPacketStart_decode, he, failsTruncated, ht]
  · intro fh h
    obtain ⟨e, he, ht⟩ := structRead_short 256 h
    simp [XTFPingHeader_decode, he, failsTruncated, ht]
  · intro h
    obtain ⟨e, he, ht⟩ := structRead_short 64 h
    simp [XTFPingChanHeader_decode, he, failsTruncated, ht]

/-- Witness for claim C5 at a three-byte source. -/
theorem claimC5witness :
    failsTruncated (XTFFileHeader_decode ⟨[1, 2, 3], 0⟩) = true
    ∧ failsTruncated (XTFPacketStart_decode ⟨[1, 2, 3], 0⟩) = true
    ∧ failsTruncated (XTFPingHeader_decode emptyFH ⟨[1, 2, 3], 0⟩) = true
    ∧ failsTruncated (XTFPingChanHeader_decode ⟨[1, 2, 3], 0⟩) = true :=
  ⟨(claimC5 ⟨[1, 2, 3], 0⟩).1 (by decide),
   (claimC5 ⟨[1, 2, 3], 0⟩).2.1 (by decide),
   (claimC5 ⟨[1, 2, 3], 0⟩).2.2.1 emptyFH (by decide),
   (claimC5 ⟨[1, 2, 3], 0⟩).2.2.2 (by decide)⟩

/-! ### Claim C6 -/

/-- Claim C6: a packet preamble whose 16-bit magic field differs from 0xFACE
fails with the `CorruptStream` condition (the decoder raises, so no further
structure of that stream is decoded and no resynchronization is attempted);
when the magic equals 0xFACE the check passes and the preamble decodes. -/
theorem claimC6 (pre rest : List Nat) (h14 : pre.length = 14) :
    (readField pre 0 2 ≠ 0xFACE →
      XTFPacketStart_decode ⟨pre ++ rest, 0⟩ = .error .corruptStream)
    ∧ (readField pre 0 2 = 0xFACE →
      XTFPacketStart_decode ⟨pre ++ rest, 0⟩ =
        .ok (parsePacketStart pre, ⟨pre ++ rest, 14⟩)) := by
  have hs := structRead_append rest h14 (by omega)
  constructor
  · intro hm
    simp only [XTFPacketStart_decode, hs]
    rw [if_pos]
    exact hm
  · intro hm
    simp only [XTFPacketStart_decode, hs]
    rw [if_neg]
    simp only [parsePacketStart, hm, ne_eq, not_not]

/-- Witness for claim C6: a corrupt magic (0xFACD) and a valid one (0xFACE). -/
theorem claimC6witness :
    XTFPacketStart_decode ⟨c6Bad ++ [], 0⟩ = .error .corruptStream
    ∧ XTFPacketStart_decode ⟨c6Good ++ [], 0⟩ =
        .ok (parsePacketStart c6Good, ⟨c6Good ++ [], 14⟩) :=
  ⟨(claimC6 c6Bad [] (by decide)).1 (by decide),
   (claimC6 c6Good [] (by decide)).2 (by decide)⟩

/-! ### Claims C8 and C9 (timestamp resolution) -/

theorem daysBeforeMonth_eq_monthDaysSum (y m : Nat) (h1 : 1 ≤ m) (h2 : m ≤ 12) :
    daysBeforeMonth y m = monthDaysSum y (m - 1) := by
  interval_cases m <;> cases hL : isLeapYear y <;>
    simp [daysBeforeMonth, DAYS_BEFORE_MONTH, monthDaysSum, daysInMonth, hL]

/-- Claim C8: when no non-zero source-epoch field is present, `get_time`
resolves the packet time to the proleptic-Gregorian calendar time built from
`{Year, Month, Day, Hour, Minute, Second}` (with correct leap-year month
lengths) plus a sub-second contribution taken from exactly one field in
priority order — hundredths of a second (×10 ms), else milliseconds, else
microseconds.  The hypothesis that `Millisecond` and `Microsecond` are not
both present holds for every packet class of the source (each class exposes
at most one sub-second field). -/
theorem claimC8 (p : TimeFields)
    (hse : truthyOpt p.SourceEpoch = false)
    (hd : dateValid p.Year p.Month p.Day = true)
    (hone : p.Millisecond = none ∨ p.Microsecond = none) :
    get_time p = .ok (specCalendarMicroseconds p) := by
  have hm : 1 ≤ p.Month ∧ p.Month ≤ 12 := by
    simp only [dateValid, Bool.and_eq_true, decide_eq_true_eq] at hd
    omega
  have key : pyOrdinal p.Year p.Month p.Day =
      daysBeforeYear p.Year + monthDaysSum p.Year (p.Month - 1) + p.Day := by
    unfold pyOrdinal
    rw [daysBeforeMonth_eq_monthDaysSum _ _ hm.1 hm.2]
  have key2 : pyOrdinal p.Year 1 1 = daysBeforeYear p.Year + 1 := by
    unfold pyOrdinal
    rw [show daysBeforeMonth p.Year 1 = 0 from by
      simp [daysBeforeMonth, DAYS_BEFORE_MONTH]]
  have base :
      ((pyOrdinal p.Year 1 1 : Int) - (epochOrdinal : Int)) * 86400000000
        + ((pyOrdinal p.Year p.Month p.Day : Int) - (pyOrdinal p.Year 1 1 : Int)) * 86400000000
      = specEpochDays p.Year p.Month p.Day * 86400000000 := by
    unfold specEpochDays specDayOfYear epochOrdinal
    rw [key, key2]
    push_cast
    ring
  simp only [get_time, hse, Bool.false_eq_true, if_false, hd, if_true]
  cases hhs : p.HSeconds with
  | some hs =>
    simp only [specCalendarMicroseconds, specSubsecondMicroseconds, hhs,
      Except.ok.injEq]
    omega
  | none =>
    rcases hone with hms | hus
    · cases hus : p.Microsecond with
      | some us =>
        simp only [specCalendarMicroseconds, specSubsecondMicroseconds, hhs, hms, hus,
          Except.ok.injEq]
        omega
      | none =>
        simp only [specCalendarMicroseconds, specSubsecondMicroseconds, hhs, hms, hus,
          Except.ok.injEq]
        omega
    · cases hms : p.Millisecond with
      | some ms =>
        simp only [specCalendarMicroseconds, specSubsecondMicroseconds, hhs, hms, hus,
          Except.ok.injEq]
        omega
      | none =>
        simp only [specCalendarMicroseconds, specSubsecondMicroseconds, hhs, hms, hus,
          Except.ok.injEq]
        omega

/-- Witness for claim C8: `{year = 2020, month = 3, day = 1, hour = 0,
minute = 0, second = 0, hundredths = 50}` resolves to
2020-03-01T00:00:00.500Z, i.e. 1583020800500000 microseconds after the 1970
epoch (leap-day 2020-02-29 included in the day count). -/
theorem claimC8witness :
    get_time c8Packet = .ok (specCalendarMicroseconds c8Packet)
    ∧ specCalendarMicroseconds c8Packet = 1583020800500000 :=
  ⟨claimC8 c8Packet (by decide) (by decide) (Or.inl rfl), by decide⟩

/-- Claim C9: a packet with a present, non-zero `SourceEpoch` and an absent or
zero `EpochMicroseconds` resolves to exactly its epoch seconds, with
whole-second precision; every calendar field and any `HSeconds`,
`Millisecond` or `Microsecond` field is ignored in this case. -/
theorem claimC9 (p : TimeFields) (e : Nat)
    (hse : p.SourceEpoch = some e) (hpos : 0 < e)
    (hem : p.EpochMicroseconds = none ∨ p.EpochMicroseconds = some 0) :
    get_time p = .ok ((e : Int) * 1000000) := by
  have hte : truthyOpt (some e) = true := by
    simpa [truthyOpt] using hpos
  have htf : truthyOpt p.EpochMicroseconds = false := by
    rcases hem with hem | hem <;> simp [truthyOpt, hem]
  simp [get_time, hse, hte, htf]

/-- Witness for claim C9: a navigation-shaped packet with
`SourceEpoch = 10^9`, `EpochMicroseconds = 0`, invalid calendar fields and all
three sub-second fields set still resolves to exactly 10^9 seconds. -/
theorem claimC9witness :
    get_time c9Packet = .ok ((1000000000 : Int) * 1000000) :=
  claimC9 c9Packet 1000000000 rfl (by decide) (Or.inr rfl)

/-! ### Claim C7 (file-header channel count) -/

set_option maxRecDepth 100000 in
/-- Counterexample to claim C7: the claim says a file header whose counters
sum to more than 6 still parses successfully, merely ignoring the
out-of-range channels.  On a 1024-byte header with
`NumberOfSonarChannels = 7`, `channel_count()` is 7 and
`XTFFileHeader.__init__` evaluates `self.ChanInfo[6]` on the six-slot ctypes
array, raising `IndexError`: the parse fails instead of succeeding. -/
theorem claimC7counterexample :
    (parseFileHeader c7Bytes).channel_count = 7
    ∧ XTFFileHeader_decode ⟨c7Bytes, 0⟩ = .error .indexError := by
  constructor
  · decide
  · decide

/-- Claim C7 (amended): `channel_count()` equals the sum of the six
per-category counters read from the header bytes, for every counter
combination; but a header whose counters sum to more than 6 does not parse —
gathering the channel descriptors raises `IndexError` — while a header whose
counters sum to at most 6 parses successfully. -/
theorem claimC7 :
    (∀ bs : List Nat, (parseFileHeader bs).channel_count =
      readField bs 166 2 + readField bs 168 2 + readField bs 170 1
        + readField bs 171 1 + readField bs 172 2 + readField bs 174 1)
    ∧ (∀ src : ByteSource, 1024 ≤ src.data.length - src.pos →
        6 < (parseFileHeader ((src.data.drop src.pos).take 1024)).channel_count →
        XTFFileHeader_decode src = .error .indexError)
    ∧ (∀ src : ByteSource, 1024 ≤ src.data.length - src.pos →
        (parseFileHeader ((src.data.drop src.pos).take 1024)).channel_count ≤ 6 →
        isOkE (XTFFileHeader_decode src) = true) := by
  refine ⟨fun bs => rfl, ?_, ?_⟩
  · intro src havail hcount
    have hs := structRead_ok_of_le 1024 src (by omega) havail
    have hlen : (parseFileHeader ((src.data.drop src.pos).take 1024)).ChanInfo.length = 6 := by
      rfl
    have hpir := pyIndexRange_err_of_gt
      (parseFileHeader ((src.data.drop src.pos).take 1024)).ChanInfo
      (parseFileHeader ((src.data.drop src.pos).take 1024)).channel_count
      (by rw [hlen]; exact hcount)
    simp only [XTFFileHeader_decode, hs, hpir]
  · intro src havail hcount
    have hs := structRead_ok_of_le 1024 src (by omega) havail
    have hlen : (parseFileHeader ((src.data.drop src.pos).take 1024)).ChanInfo.length = 6 := by
      rfl
    have hpir := pyIndexRange_ok_of_le
      (parseFileHeader ((src.data.drop src.pos).take 1024)).ChanInfo
      (parseFileHeader ((src.data.drop src.pos).take 1024)).channel_count
      (by rw [hlen]; exact hcount)
    simp only [XTFFileHeader_decode, hs, hpir, isOkE]

set_option maxRecDepth 100000 in
/-- Witness for claim C7: the counter sum on `c10Bytes`, the `IndexError` on
the seven-channel header, and a successful parse of the three-channel
header. -/
theorem claimC7witness :
    (parseFileHeader c10Bytes).channel_count =
      readField c10Bytes 166 2 + readField c10Bytes 168 2 + readField c10Bytes 170 1
        + readField c10Bytes 171 1 + readField c10Bytes 172 2 + readField c10Bytes 174 1
    ∧ XTFFileHeader_decode ⟨c7Bytes, 0⟩ = .error .indexError
    ∧ isOkE (XTFFileHeader_decode ⟨c10Bytes, 0⟩) = true :=
  ⟨claimC7.1 c10Bytes,
   claimC7.2.1 ⟨c7Bytes, 0⟩ (by decide) (by decide),
   claimC7.2.2 ⟨c10Bytes, 0⟩ (by decide) (by decide)⟩

/-! ### Claim C10 (channel views) -/

/-- Claim C10: in a successfully parsed file header, a descriptor among the
first `channel_count()` slots whose channel type is not one of the four known
types (subbottom = 0, port = 1, stbd = 2, bathy = 3) appears in neither
`sonar_info` nor `bathy_info`; both views preserve the original descriptor
order (they are sublists of the used slots); and the two views are
disjoint. -/
theorem claimC10 (src : ByteSource) (fh : XTFFileHeaderRec) (out : ByteSource)
    (h : XTFFileHeader_decode src = .ok (fh, out)) :
    (∀ c ∈ fh.ChanInfo.take fh.channel_count,
      c.TypeOfChannel ∉ ([0, 1, 2, 3] : List Nat) →
      c ∉ fh.sonar_info ∧ c ∉ fh.bathy_info)
    ∧ fh.sonar_info.Sublist (fh.ChanInfo.take fh.channel_count)
    ∧ fh.bathy_info.Sublist (fh.ChanInfo.take fh.channel_count)
    ∧ ∀ c ∈ fh.sonar_info, c ∉ fh.bathy_info := by
  rw [XTFFileHeader_decode] at h
  cases hs : structRead 1024 src with
  | error e => rw [hs] at h; cases h
  | ok pr =>
    obtain ⟨bs, src1⟩ := pr
    rw [hs] at h
    dsimp only at h
    cases hpir : pyIndexRange (parseFileHeader bs).ChanInfo
        (parseFileHeader bs).channel_count with
    | error e => rw [hpir] at h; cases h
    | ok chan_info =>
      rw [hpir] at h
      simp only [Except.ok.injEq, Prod.mk.injEq] at h
      obtain ⟨hfh, -⟩ := h
      obtain ⟨htake, -⟩ := pyIndexRange_ok_inv _ _ _ hpir
      subst hfh
      have hchan : (parseFileHeader bs).ChanInfo.take
          (parseFileHeader bs).channel_count = chan_info := htake.symm
      refine ⟨?_, ?_, ?_, ?_⟩
      · intro c _ hunk
        constructor
        · show c ∉ chan_info.filter fun x => decide (x.TypeOfChannel ∈ sonar_chan_types)
          intro hmem
          have hp := (List.mem_filter.mp hmem).2
          simp [sonar_chan_types] at hp
          apply hunk
          rcases hp with h1 | h1 | h1 <;> simp [h1]
        · show c ∉ chan_info.filter fun x => decide (x.TypeOfChannel = bathyChannelType)
          intro hmem
          have hp := (List.mem_filter.mp hmem).2
          simp only [decide_eq_true_eq, bathyChannelType] at hp
          apply hunk
          simp [hp]
      · show (chan_info.filter fun x => decide (x.TypeOfChannel ∈ sonar_chan_types)).Sublist
            ((parseFileHeader bs).ChanInfo.take (parseFileHeader bs).channel_count)
        rw [hchan]
        exact List.filter_sublist chan_info
      · show (chan_info.filter fun x => decide (x.TypeOfChannel = bathyChannelType)).Sublist
            ((parseFileHeader bs).ChanInfo.take (parseFileHeader bs).channel_count)
        rw [hchan]
        exact List.filter_sublist chan_info
      · intro c hcs
        have hcs' : c ∈ chan_info.filter
            fun x => decide (x.TypeOfChannel ∈ sonar_chan_types) := hcs
        show c ∉ chan_info.filter fun x => decide (x.TypeOfChannel = bathyChannelType)
        intro hcb
        have h1 := (List.mem_filter.mp hcs').2
        have h2 := (List.mem_filter.mp hcb).2
        simp [sonar_chan_types, bathyChannelType] at h1 h2
        rw [h2] at h1
        rcases h1 with h1 | h1 | h1 <;> omega

set_option maxRecDepth 100000 in
/-- Witness for claim C10 on the concrete header `c10Bytes` (channel types 1,
7 and 3 in the used slots; the unknown type 7 lands in neither view). -/
theorem claimC10witness :
    (∀ c ∈ c10FH.ChanInfo.take c10FH.channel_count,
      c.TypeOfChannel ∉ ([0, 1, 2, 3] : List Nat) →
      c ∉ c10FH.sonar_info ∧ c ∉ c10FH.bathy_info)
    ∧ c10FH.sonar_info.Sublist (c10FH.ChanInfo.take c10FH.channel_count)
    ∧ c10FH.bathy_info.Sublist (c10FH.ChanInfo.take c10FH.channel_count)
    ∧ ∀ c ∈ c10FH.sonar_info, c ∉ c10FH.bathy_info :=
  claimC10 ⟨c10Bytes, 0⟩ c10FH ⟨c10Bytes, 1024⟩ (by decide)

/-! ### Claim C3 (bathy_xyza beam records) -/

set_option maxRecDepth 100000 in
/-- Counterexample to claim C3: the claim says a `bathy_xyza` payload whose
length is not a multiple of the 31-byte beam record yields `CorruptRecord`.
On a record with `NumBytesThisRecord = 288` the payload block is 32 bytes
(32 % 31 = 1 ≠ 0), yet the decode succeeds: `num_xyza = n_bytes // 31`
floor-divides, one beam record is produced, and the trailing byte is
silently discarded. -/
theorem claimC3counterexample :
    readField c3Pre 10 4 = 288
    ∧ (288 - 256) % 31 = 1
    ∧ pingBeamCount (XTFPingHeader_decode emptyFH ⟨c3Pre ++ List.replicate 32 5, 0⟩) = some 1
    ∧ pingFinalPos (XTFPingHeader_decode emptyFH ⟨c3Pre ++ List.replicate 32 5, 0⟩) = some 288 := by
  refine ⟨by decide, by decide, by decide, by decide⟩

/-- Claim C3 (amended): for a `bathy_xyza` record the decoder reads the
`num_bytes_this_record − size(ping_header)` payload bytes and overlays
`⌊n_bytes / 31⌋` fixed-size 31-byte beam records
{offset_x: f64, offset_y: f64, depth: f32, time: f64, amplitude: i16,
quality: u8} on them; a block length that is not a multiple of the
beam-record size is not rejected — the remainder bytes are silently
discarded and the decode succeeds (no `CorruptRecord` condition). -/
theorem claimC3 (fh : XTFFileHeaderRec) (pre rest : List Nat) (nB : Nat)
    (h256 : pre.length = 256)
    (hMagic : (parsePacketStart pre).MagicNumber = 0xFACE)
    (hType : (parsePacketStart pre).HeaderType = 17)
    (hnb : (parsePacketStart pre).NumBytesThisRecord = 256 + nB)
    (hpos : 0 < nB)
    (hLen : nB ≤ rest.length) :
    XTFPingHeader_decode fh ⟨pre ++ rest, 0⟩ =
      .ok ({ start := parsePacketStart pre, ping_chan_headers := [],
             data := .xyza (chunkList 31 (rest.take (31 * (nB / 31)))) },
           ⟨pre ++ rest, 256 + nB⟩)
    ∧ (chunkList 31 (rest.take (31 * (nB / 31)))).length = nB / 31 := by
  have hs := structRead_append rest h256 (by omega)
  have hdrop : (pre ++ rest).drop 256 = rest := by
    rw [← h256]
    exact List.drop_left pre rest
  have htake : (rest.take nB).length = nB := by
    simp only [List.length_take]
    omega
  have hInt : ((parsePacketStart pre).NumBytesThisRecord : Int) - (sizeofXTFPingHeader : Int)
      = (nB : Int) := by
    rw [hnb]
    unfold sizeofXTFPingHeader
    push_cast
    ring
  have hfdiv : Int.fdiv (nB : Int) (sizeofXTFBeamXYZA : Int) = ((nB / 31 : Nat) : Int) := by
    unfold sizeofXTFBeamXYZA
    exact (Int.ofNat_fdiv nB 31).symm
  have hmul : 31 * (nB / 31) ≤ nB := by
    calc 31 * (nB / 31) = nB / 31 * 31 := by ring
    _ ≤ nB := Nat.div_mul_le_self nB 31
  have htake2 : (rest.take (31 * (nB / 31))).length = 31 * (nB / 31) := by
    simp only [List.length_take]
    omega
  constructor
  · rw [XTFPingHeader_decode, hs]
    dsimp only
    rw [if_neg (show ¬((parsePacketStart pre).HeaderType = 0) from by rw [hType]; omega)]
    rw [if_pos (show (parsePacketStart pre).HeaderType ∈ bathy_header_types from by
      rw [hType]; decide)]
    rw [hInt]
    rw [ByteSource.readPy]
    rw [if_neg (show ¬((nB : Int) < 0) from by omega)]
    rw [Int.toNat_natCast]
    simp only [ByteSource.read, hdrop]
    rw [htake]
    rw [if_neg (show ¬(nB = 0) from by omega)]
    rw [if_pos hType]
    rw [hfdiv]
    rw [if_neg (show ¬(((nB / 31 : Nat) : Int) < 0) from by omega)]
    rw [Int.toNat_natCast]
    rw [if_neg (show ¬(nB < sizeofXTFBeamXYZA * (nB / 31)) from by
      unfold sizeofXTFBeamXYZA; omega)]
    rw [List.take_take]
    rw [min_eq_left (show sizeofXTFBeamXYZA * (nB / 31) ≤ nB from by
      unfold sizeofXTFBeamXYZA; exact hmul)]
    dsimp only
    rw [if_neg (show ¬((parsePacketStart pre).MagicNumber ≠ 0xFACE) from by
      rw [hMagic]; omega)]
    rfl
  · exact chunkList_length 31 (by omega) (nB / 31) _ htake2

set_option maxRecDepth 100000 in
/-- Witness for claim C3: a `bathy_xyza` record with `NumBytesThisRecord =
289` (payload 33 bytes) decodes successfully into one beam record, dropping
the two trailing bytes. -/
theorem claimC3witness :
    XTFPingHeader_decode emptyFH ⟨c3wPre ++ List.replicate 33 4, 0⟩ =
      .ok ({ start := parsePacketStart c3wPre, ping_chan_headers := [],
             data := .xyza (chunkList 31 ((List.replicate 33 4).take (31 * (33 / 31)))) },
           ⟨c3wPre ++ List.replicate 33 4, 256 + 33⟩)
    ∧ (chunkList 31 ((List.replicate 33 4).take (31 * (33 / 31)))).length = 33 / 31 :=
  claimC3 emptyFH c3wPre (List.replicate 33 4) 33 (by decide) (by decide) (by decide)
    (by decide) (by decide) (by decide)

/-! ### Claim C4 (sample-count resolution) -/

/-- Claim C4: in sonar channel iteration `i` the decoder resolves the sample
count to the sub-header's `NumSamples` when it is greater than 0, and
otherwise falls back to the legacy count `Reserved` of the positionally bound
descriptor `sonar_info[i]`; it then reads exactly
`resolvedSampleCount * BytesPerSample` payload bytes after the 64-byte
sub-header and returns them as the channel's sample array. -/
theorem claimC4 (fh : XTFFileHeaderRec) (nbtr i : Nat) (chBytes rest : List Nat)
    (ci : XTFChanInfoRec)
    (h64 : chBytes.length = 64)
    (hci : fh.sonar_info.get? i = some ci)
    (hw : ci.BytesPerSample = 1 ∨ ci.BytesPerSample = 2 ∨ ci.BytesPerSample = 4 ∨
      ci.BytesPerSample = 8)
    (hFit : ((resolvedSampleCount (parsePingChanHeader chBytes) ci * ci.BytesPerSample : Nat) : Int)
      ≤ (nbtr : Int) - (sizeofXTFPingHeader : Int) - (sizeofXTFPingChanHeader : Int))
    (hPos : 0 < resolvedSampleCount (parsePingChanHeader chBytes) ci * ci.BytesPerSample)
    (hLen : resolvedSampleCount (parsePingChanHeader chBytes) ci * ci.BytesPerSample
      ≤ rest.length) :
    decodeSonarChannel fh nbtr i ⟨chBytes ++ rest, 0⟩ =
      .ok (parsePingChanHeader chBytes,
        chunkLE ci.BytesPerSample
          (rest.take (resolvedSampleCount (parsePingChanHeader chBytes) ci * ci.BytesPerSample)),
        ⟨chBytes ++ rest,
          64 + resolvedSampleCount (parsePingChanHeader chBytes) ci * ci.BytesPerSample⟩) := by
  have hdec : XTFPingChanHeader_decode ⟨chBytes ++ rest, 0⟩ =
      .ok (parsePingChanHeader chBytes, ⟨chBytes ++ rest, 64⟩) := by
    rw [XTFPingChanHeader_decode, structRead_append rest h64 (by omega)]
  have hresolved :
      (if 0 < (parsePingChanHeader chBytes).NumSamples
       then Except.ok (parsePingChanHeader chBytes).NumSamples
       else
         match fh.sonar_info.get? i with
         | some ci => Except.ok ci.Reserved
         | none => Except.error XTFError.indexError) =
      Except.ok (resolvedSampleCount (parsePingChanHeader chBytes) ci) := by
    rw [resolvedSampleCount]
    by_cases h0 : 0 < (parsePingChanHeader chBytes).NumSamples
    · rw [if_pos h0, if_pos h0]
    · rw [if_neg h0, if_neg h0, hci]
  have hdrop : (chBytes ++ rest).drop 64 = rest := by
    rw [← h64]
    exact List.drop_left chBytes rest
  have htake : (rest.take (resolvedSampleCount (parsePingChanHeader chBytes) ci *
      ci.BytesPerSample)).length =
      resolvedSampleCount (parsePingChanHeader chBytes) ci * ci.BytesPerSample := by
    simp only [List.length_take]
    omega
  rw [decodeSonarChannel, hdec]
  dsimp only
  rw [hresolved]
  dsimp only
  rw [hci]
  dsimp only
  rw [if_neg (show ¬(((resolvedSampleCount (parsePingChanHeader chBytes) ci *
      ci.BytesPerSample : Nat) : Int) >
      (nbtr : Int) - (sizeofXTFPingHeader : Int) - (sizeofXTFPingChanHeader : Int)) from
    not_lt.mpr hFit)]
  simp only [ByteSource.read, hdrop]
  rw [htake]
  rw [if_neg (show ¬(resolvedSampleCount (parsePingChanHeader chBytes) ci *
      ci.BytesPerSample = 0) from by omega)]
  rw [if_neg (not_not_intro hw)]
  rw [if_neg (not_not_intro (Nat.mul_mod_left
    (resolvedSampleCount (parsePingChanHeader chBytes) ci) ci.BytesPerSample))]

set_option maxRecDepth 100000 in
/-- Witness for claim C4: with `bytes_per_sample = 2` and legacy count 3, a
sub-header with `NumSamples = 0` falls back to the legacy count (3 samples,
6 payload bytes), while a sub-header with `NumSamples = 5` uses 5 samples
(10 payload bytes) regardless of the legacy value. -/
theorem claimC4witness :
    decodeSonarChannel c4FH 326 0 ⟨c4ChA ++ [1, 2, 3, 4, 5, 6], 0⟩ =
      .ok (parsePingChanHeader c4ChA,
        chunkLE 2 (([1, 2, 3, 4, 5, 6] : List Nat).take
          (resolvedSampleCount (parsePingChanHeader c4ChA) c4CI * 2)),
        ⟨c4ChA ++ [1, 2, 3, 4, 5, 6],
          64 + resolvedSampleCount (parsePingChanHeader c4ChA) c4CI * 2⟩)
    ∧ resolvedSampleCount (parsePingChanHeader c4ChA) c4CI = 3
    ∧ decodeSonarChannel c4FH 330 0 ⟨c4ChB ++ [1, 2, 3, 4, 5, 6, 7, 8, 9, 10], 0⟩ =
      .ok (parsePingChanHeader c4ChB,
        chunkLE 2 (([1, 2, 3, 4, 5, 6, 7, 8, 9, 10] : List Nat).take
          (resolvedSampleCount (parsePingChanHeader c4ChB) c4CI * 2)),
        ⟨c4ChB ++ [1, 2, 3, 4, 5, 6, 7, 8, 9, 10],
          64 + resolvedSampleCount (parsePingChanHeader c4ChB) c4CI * 2⟩)
    ∧ resolvedSampleCount (parsePingChanHeader c4ChB) c4CI = 5 :=
  ⟨claimC4 c4FH 326 0 c4ChA [1, 2, 3, 4, 5, 6] c4CI (by decide) (by decide) (by decide)
     (by decide) (by decide) (by decide),
   by decide,
   claimC4 c4FH 330 0 c4ChB [1, 2, 3, 4, 5, 6, 7, 8, 9, 10] c4CI (by decide) (by decide)
     (by decide) (by decide) (by decide) (by decide),
   by decide⟩

/-! ### Claim C1 (frame-bound check) -/

/-- A successful sonar channel iteration consumes the 64-byte sub-header plus
at most `num_bytes_this_record − size(ping_header) − size(sub_header)` sample
bytes: the n_bytes ≤ n_bytes_remaining check passed, so the final position is
within `nbtr − size(ping_header)` of the iteration's start. -/
theorem decodeSonarChannel_ok_pos {fh : XTFFileHeaderRec} {nbtr i : Nat} {src : ByteSource}
    {pc : XTFPingChanHeaderRec} {d : List Nat} {out : ByteSource}
    (h : decodeSonarChannel fh nbtr i src = .ok (pc, d, out)) :
    out.pos + sizeofXTFPingHeader ≤ src.pos + nbtr := by
  rw [decodeSonarChannel] at h
  cases hd : XTFPingChanHeader_decode src with
  | error e => rw [hd] at h; cases h
  | ok pr =>
    obtain ⟨pc1, src1⟩ := pr
    rw [hd] at h
    dsimp only at h
    have hsub : src1.pos = src.pos + 64 := by
      rw [XTFPingChanHeader_decode] at hd
      cases hsr : structRead 64 src with
      | error e => rw [hsr] at hd; cases hd
      | ok pr2 =>
        obtain ⟨bs2, out2⟩ := pr2
        rw [hsr] at hd
        dsimp only at hd
        obtain ⟨-, -, -, hpos2⟩ := structRead_ok_inv hsr
        simp only [Except.ok.injEq, Prod.mk.injEq] at hd
        rw [← hd.2]
        exact hpos2
    cases hres : (if 0 < pc1.NumSamples then Except.ok pc1.NumSamples
        else
          match fh.sonar_info.get? i with
          | some ci => Except.ok ci.Reserved
          | none => Except.error XTFError.indexError) with
    | error e => rw [hres] at h; cases h
    | ok n_samples =>
      rw [hres] at h
      dsimp only at h
      cases hget : fh.sonar_info.get? i with
      | none => rw [hget] at h; cases h
      | some ci =>
        rw [hget] at h
        dsimp only at h
        by_cases hcorrupt : ((n_samples * ci.BytesPerSample : Nat) : Int) >
            (nbtr : Int) - (sizeofXTFPingHeader : Int) - (sizeofXTFPingChanHeader : Int)
        · rw [if_pos hcorrupt] at h
          cases h
        · rw [if_neg hcorrupt] at h
          simp only [ByteSource.read] at h
          by_cases hz :
              ((src1.data.drop src1.pos).take (n_samples * ci.BytesPerSample)).length = 0
          · rw [if_pos hz] at h
            cases h
          · rw [if_neg hz] at h
            by_cases hwid : ¬(ci.BytesPerSample = 1 ∨ ci.BytesPerSample = 2 ∨
                ci.BytesPerSample = 4 ∨ ci.BytesPerSample = 8)
            · rw [if_pos hwid] at h
              cases h
            · rw [if_neg hwid] at h
              by_cases hdvd :
                  ¬((src1.data.drop src1.pos).take (n_samples * ci.BytesPerSample)).length %
                    ci.BytesPerSample = 0
              · rw [if_pos hdvd] at h
                cases h
              · rw [if_neg hdvd] at h
                simp only [Except.ok.injEq, Prod.mk.injEq] at h
                obtain ⟨-, -, hout⟩ := h
                rw [← hout]
                have hlen :
                    ((src1.data.drop src1.pos).take (n_samples * ci.BytesPerSample)).length ≤
                      n_samples * ci.BytesPerSample := by
                  simp [List.length_take]
                have hnb : n_samples * ci.BytesPerSample + sizeofXTFPingHeader +
                    sizeofXTFPingChanHeader ≤ nbtr := by
                  unfold sizeofXTFPingHeader sizeofXTFPingChanHeader at hcorrupt ⊢
                  omega
                dsimp only
                unfold sizeofXTFPingHeader sizeofXTFPingChanHeader at hnb
                unfold sizeofXTFPingHeader
                omega

/-- A one-channel sonar loop advances the position by at most
`nbtr − size(ping_header)`. -/
theorem readSonarChannels_one_ok_pos {fh : XTFFileHeaderRec} {nbtr i : Nat}
    {src : ByteSource} {pcs : List XTFPingChanHeaderRec} {ds : List (List Nat)}
    {out : ByteSource}
    (h : readSonarChannels fh nbtr 1 i src = .ok (pcs, ds, out)) :
    out.pos + sizeofXTFPingHeader ≤ src.pos + nbtr := by
  rw [readSonarChannels] at h
  cases hd : decodeSonarChannel fh nbtr i src with
  | error e => rw [hd] at h; cases h
  | ok tr =>
    obtain ⟨pc, d, src1⟩ := tr
    rw [hd] at h
    dsimp only at h
    rw [readSonarChannels] at h
    dsimp only at h
    simp only [Except.ok.injEq, Prod.mk.injEq] at h
    obtain ⟨-, -, hout⟩ := h
    rw [← hout]
    exact decodeSonarChannel_ok_pos hd

/-- Claim C1 (amended): in each sonar channel iteration the decoder computes
`n_bytes_remaining = num_bytes_this_record − size(ping_header) −
size(sub_header)` — a quantity that does not shrink as channels are consumed
— and raises `CorruptRecord` whenever the iteration's `n_bytes` exceeds it
(first conjunct, for every iteration index and byte source).  Consequently a
sonar record with `num_channels_to_follow = 1` never reads past the frame
boundary `num_bytes_this_record` (second conjunct); the guarantee does not
extend to records with two or more channels, whose per-iteration checks are
all made against the same full remaining length (see the counterexample). -/
theorem claimC1 :
    (∀ (fh : XTFFileHeaderRec) (nbtr i : Nat) (chBytes rest : List Nat)
        (ci : XTFChanInfoRec),
      chBytes.length = 64 →
      fh.sonar_info.get? i = some ci →
      ((resolvedSampleCount (parsePingChanHeader chBytes) ci * ci.BytesPerSample : Nat) : Int) >
          (nbtr : Int) - (sizeofXTFPingHeader : Int) - (sizeofXTFPingChanHeader : Int) →
      decodeSonarChannel fh nbtr i ⟨chBytes ++ rest, 0⟩ = .error .corruptRecord)
    ∧ (∀ (fh : XTFFileHeaderRec) (src : ByteSource) (r : XTFPingResult) (out : ByteSource),
      XTFPingHeader_decode fh src = .ok (r, out) →
      r.start.HeaderType = 0 → r.start.NumChansToFollow = 1 →
      out.pos ≤ src.pos + r.start.NumBytesThisRecord) := by
  constructor
  · intro fh nbtr i chBytes rest ci h64 hci hGt
    have hdec : XTFPingChanHeader_decode ⟨chBytes ++ rest, 0⟩ =
        .ok (parsePingChanHeader chBytes, ⟨chBytes ++ rest, 64⟩) := by
      rw [XTFPingChanHeader_decode, structRead_append rest h64 (by omega)]
    have hresolved :
        (if 0 < (parsePingChanHeader chBytes).NumSamples
         then Except.ok (parsePingChanHeader chBytes).NumSamples
         else
           match fh.sonar_info.get? i with
           | some ci => Except.ok ci.Reserved
           | none => Except.error XTFError.indexError) =
        Except.ok (resolvedSampleCount (parsePingChanHeader chBytes) ci) := by
      rw [resolvedSampleCount]
      by_cases h0 : 0 < (parsePingChanHeader chBytes).NumSamples
      · rw [if_pos h0, if_pos h0]
      · rw [if_neg h0, if_neg h0, hci]
    rw [decodeSonarChannel, hdec]
    dsimp only
    rw [hresolved]
    dsimp only
    rw [hci]
    dsimp only
    rw [if_pos hGt]
  · intro fh src r out h hType hChans
    rw [XTFPingHeader_decode] at h
    cases hs : structRead 256 src with
    | error e => rw [hs] at h; cases h
    | ok pr =>
      obtain ⟨bs, src1⟩ := pr
      rw [hs] at h
      dsimp only at h
      obtain ⟨-, -, -, hpos1⟩ := structRead_ok_inv hs
      by_cases h0 : (parsePacketStart bs).HeaderType = 0
      · rw [if_pos h0] at h
        cases hrs : readSonarChannels fh (parsePacketStart bs).NumBytesThisRecord
            (parsePacketStart bs).NumChansToFollow 0 src1 with
        | error e => rw [hrs] at h; cases h
        | ok tr =>
          obtain ⟨pcs, ds, src2⟩ := tr
          rw [hrs] at h
          dsimp only at h
          by_cases hm : (parsePacketStart bs).MagicNumber ≠ 0xFACE
          · rw [if_pos hm] at h
            cases h
          · rw [if_neg hm] at h
            simp only [Except.ok.injEq, Prod.mk.injEq] at h
            obtain ⟨hr, hout⟩ := h
            have hstart : r.start = parsePacketStart bs := by rw [← hr]
            rw [hstart] at hChans
            rw [hChans] at hrs
            have hb := readSonarChannels_one_ok_pos hrs
            rw [← hout, hstart]
            unfold sizeofXTFPingHeader at hb
            omega
      · -- the sonar branch was not taken, yet the decoded record's header type
        -- is 0: impossible, every other successful branch copies the parsed
        -- preamble into the result
        exfalso
        rw [if_neg h0] at h
        by_cases hbt : (parsePacketStart bs).HeaderType ∈ bathy_header_types
        · rw [if_pos hbt] at h
          by_cases hz : (src1.readPy (((parsePacketStart bs).NumBytesThisRecord : Int) -
              (sizeofXTFPingHeader : Int))).1.length = 0
          · rw [if_pos hz] at h
            cases h
          · rw [if_neg hz] at h
            by_cases h17 : (parsePacketStart bs).HeaderType = 17
            · rw [if_pos h17] at h
              by_cases hneg : Int.fdiv (((parsePacketStart bs).NumBytesThisRecord : Int) -
                  (sizeofXTFPingHeader : Int)) (sizeofXTFBeamXYZA : Int) < 0
              · rw [if_pos hneg] at h
                cases h
              · rw [if_neg hneg] at h
                by_cases hsmall : (src1.readPy (((parsePacketStart bs).NumBytesThisRecord : Int) -
                    (sizeofXTFPingHeader : Int))).1.length <
                    sizeofXTFBeamXYZA * (Int.fdiv (((parsePacketStart bs).NumBytesThisRecord : Int) -
                      (sizeofXTFPingHeader : Int)) (sizeofXTFBeamXYZA : Int)).toNat
                · rw [if_pos hsmall] at h
                  cases h
                · rw [if_neg hsmall] at h
                  dsimp only at h
                  by_cases hm : (parsePacketStart bs).MagicNumber ≠ 0xFACE
                  · rw [if_pos hm] at h
                    cases h
                  · rw [if_neg hm] at h
                    simp only [Except.ok.injEq, Prod.mk.injEq] at h
                    obtain ⟨hr, -⟩ := h
                    have hstart : r.start = parsePacketStart bs := by rw [← hr]
                    rw [hstart] at hType
                    exact h0 hType
            · rw [if_neg h17] at h
              dsimp only at h
              by_cases hm : (parsePacketStart bs).MagicNumber ≠ 0xFACE
              · rw [if_pos hm] at h
                cases h
              · rw [if_neg hm] at h
                simp only [Except.ok.injEq, Prod.mk.injEq] at h
                obtain ⟨hr, -⟩ := h
                have hstart : r.start = parsePacketStart bs := by rw [← hr]
                rw [hstart] at hType
                exact h0 hType
        · rw [if_neg hbt] at h
          cases h

set_option maxRecDepth 100000 in
/-- Counterexample to claim C1: a sonar record with `NumChansToFollow = 2`
and `NumBytesThisRecord = 322` against a file header with two one-byte-wide
sonar channels (legacy count 1).  Each channel declares one sample byte, so
every per-iteration check passes (1 ≤ 322 − 256 − 64 = 2), yet the decode
succeeds after consuming 386 bytes — 64 bytes beyond the declared frame — so
the decoder reads payload bytes past the frame boundary instead of raising
`CorruptRecord`. -/
theorem claimC1counterexample :
    readField c1Bytes 10 4 = 322
    ∧ c1Bytes.length = 386
    ∧ pingFinalPos (XTFPingHeader_decode c1FH ⟨c1Bytes, 0⟩) = some 386 := by
  refine ⟨by decide, by decide, by decide⟩

set_option maxRecDepth 100000 in
/-- Witness for claim C1: the per-iteration check raises `CorruptRecord` on a
sub-header declaring 5 two-byte samples against `NumBytesThisRecord = 322`
(10 > 2), and a successful one-channel decode stays within its declared 330
record bytes. -/
theorem claimC1witness :
    decodeSonarChannel c4FH 322 0 ⟨c4ChB ++ List.replicate 10 0, 0⟩ =
      .error .corruptRecord
    ∧ (⟨c1wBytes, 330⟩ : ByteSource).pos ≤
        (⟨c1wBytes, 0⟩ : ByteSource).pos + c1wResult.start.NumBytesThisRecord := by
  constructor
  · exact claimC1.1 c4FH 322 0 c4ChB (List.replicate 10 0) c4CI (by decide) (by decide)
      (by decide)
  · exact claimC1.2 c4FH ⟨c1wBytes, 0⟩ c1wResult ⟨c1wBytes, 330⟩ (by decide) (by decide)
      (by decide)

end PyXTF
